import Mathlib

/-!
Verification development for the music-visualizer Flask backend
(file server/app.py, tests in server/test_app.py).

The two HTTP handlers, `separate` (POST /api/separate) and `detect_bpm`
(POST /api/detect-bpm), are shallowly embedded as pure Lean functions.
External collaborators (the demucs separation tool, ffmpeg, the
beat-tracking library, the filesystem) are represented by oracle fields
on the request records: each field records the outcome the external
world would produce (process exit status, which stem files exist,
tempo and tick values returned by the tracker).  The handlers consume
these oracles exactly in the order the Python code consumes the
corresponding external results, and build the same responses, the same
subprocess argument vectors, and the same job-directory file sets.
-/

namespace MV

/-- A flat JSON value, enough for the bodies built by detect_bpm:
jsonify only ever receives string and integer fields there. -/
inductive Jv where
  | jstr : String → Jv
  | jint : Int → Jv
deriving DecidableEq, Repr

/-- An HTTP response: status code plus the JSON object body, kept as the
association list of fields in the order jsonify receives them. -/
structure HttpResponse where
  status : Nat
  body : List (String × Jv)
deriving DecidableEq, Repr

/-- Split a character list at every slash, keeping empty components. -/
def splitSlashAux : List Char → List Char → List String
  | [], acc => [String.mk acc.reverse]
  | c :: cs, acc =>
      if c = '/' then String.mk acc.reverse :: splitSlashAux cs []
      else splitSlashAux cs (c :: acc)

/-- Components of a POSIX path string (empty components dropped). -/
def pathComponents (s : String) : List String :=
  (splitSlashAux s.toList []).filter (fun c => !(c == ""))

/-- POSIX os.path.join with two arguments: an absolute second argument
discards the first; otherwise the two are glued with a slash unless one
is already present. -/
def osPathJoin (a b : String) : String :=
  if b.toList.head? = some '/' then b
  else if a = "" then b
  else if a.toList.getLast? = some '/' then a ++ b
  else a ++ "/" ++ b

/-- Resolve the components of a path, interpreting "." and ".." the way
the kernel would when the path is opened (".." pops one component). -/
def resolveParts (s : String) : List String :=
  (pathComponents s).foldl
    (fun acc c =>
      if c == "." then acc
      else if c == ".." then acc.dropLast
      else acc ++ [c]) []

/-- Whether the component list `p` denotes a file under the directory
denoted by the component list `root`. -/
def leadsUnder : List String → List String → Bool
  | [], _ => true
  | _ :: _, [] => false
  | r :: rs, c :: cs => r == c && leadsUnder rs cs

/-- Python round: round half to even (round(2.5) is 2, round(3.5) is 4).
Computed on the numerator and denominator with integer arithmetic:
`f` is the floor, `rem` the numerator of the fractional part, and the
comparison of `2 * rem` against the denominator compares the fractional
part against one half. -/
def pyRound (q : ℚ) : Int :=
  let d : Int := (q.den : Int)
  let f : Int := Int.fdiv q.num d
  let rem : Int := q.num - f * d
  if 2 * rem < d then f
  else if d < 2 * rem then f + 1
  else if f % 2 = 0 then f else f + 1

/-- The value librosa.beat.beat_track binds to `tempo`: depending on the
library version it is a scalar or a one-element array, and app.py handles
both (`float(tempo[0]) if hasattr(tempo, "__len__") else float(tempo)`). -/
inductive TempoRepr where
  | scalar : ℚ → TempoRepr
  | array : List ℚ → TempoRepr

/-- The expression `float(tempo[0]) if hasattr(tempo, "__len__") else
float(tempo)` from app.py line 174; indexing an empty array raises. -/
def tempoFirst : TempoRepr → Except String ℚ
  | TempoRepr.scalar q => Except.ok q
  | TempoRepr.array [] => Except.error "index 0 is out of bounds for axis 0 with size 0"
  | TempoRepr.array (q :: _) => Except.ok q

/-- One POST /api/detect-bpm request together with the outcomes of the
external calls it would trigger.  `fileUpload` is whether the multipart
form carries a `file` field; `pathField` is the optional `path` form
field; `loadResult` is what librosa.load does (raises or succeeds);
`trackResult` is what librosa.beat.beat_track returns: the tempo value
and the beat array the code discards. -/
structure BpmRequest where
  fileUpload : Bool
  pathField : Option String
  loadResult : Except String Unit
  trackResult : Except String (TempoRepr × List ℚ)

/-- Lines 162-170 of app.py: the audio path handed to librosa.load —
the saved temp file when a file was uploaded, otherwise the raw
os.path.join of the project root and the client string, and none when
neither input was supplied. -/
def bpmSelectedPath (root tmpPath : String) (req : BpmRequest) : Option String :=
  if req.fileUpload then some tmpPath
  else req.pathField.map (fun p => osPathJoin root p)

/-- The POST /api/detect-bpm handler (app.py lines 157-180).  Any
exception from load, beat_track or the tempo indexing is absorbed by the
`except` clause into a 200 response carrying the error string and the
literal fallback bpm 120; the success body is exactly one field `bpm`. -/
def detect_bpm (root tmpPath : String) (req : BpmRequest) : HttpResponse :=
  match bpmSelectedPath root tmpPath req with
  | none => ⟨400, [("error", Jv.jstr "No file or path provided")]⟩
  | some _ =>
    match req.loadResult with
    | Except.error e => ⟨200, [("error", Jv.jstr e), ("bpm", Jv.jint 120)]⟩
    | Except.ok _ =>
      match req.trackResult with
      | Except.error e => ⟨200, [("error", Jv.jstr e), ("bpm", Jv.jint 120)]⟩
      | Except.ok (tempoVal, _) =>
        match tempoFirst tempoVal with
        | Except.error e => ⟨200, [("error", Jv.jstr e), ("bpm", Jv.jint 120)]⟩
        | Except.ok q => ⟨200, [("bpm", Jv.jint (pyRound q))]⟩

/-- One POST /api/separate request together with the outcomes of the
external calls it would trigger.  `filePresent` is whether the multipart
form carries a `file` field and `filename` the name of the upload;
`demucsExit` is the exit outcome of the demucs subprocess (the error
carries its stderr); `trackDirs` is the listing of the model output
directory; the `Present` flags say which stem files demucs wrote;
the `Exit` fields are the outcomes of the three ffmpeg invocations. -/
structure SepRequest where
  filePresent : Bool
  filename : String
  demucsExit : Except String Unit
  trackDirs : List String
  drumsStemPresent : Bool
  kickExit : Except String Unit
  drumsSplitExit : Except String Unit
  guitarPresent : Bool
  pianoPresent : Bool
  otherPresent : Bool
  amixExit : Except String Unit
  bassPresent : Bool
  vocalsPresent : Bool

/-- The JSON body of a /api/separate response: the optional `error` and
`detail` string fields and the optional nested `stems` object, kept as an
association list from stem name to URL. -/
structure SepResponse where
  status : Nat
  error : Option String
  detail : Option String
  stems : Option (List (String × String))
deriving DecidableEq, Repr

/-- Observable outcome of one /api/separate request: the HTTP response,
whether a job directory was created, the argument vectors of the
subprocesses run, and the file names present in the job directory when
the handler returns. -/
structure SepResult where
  response : SepResponse
  jobCreated : Bool
  invocations : List (List String)
  jobFiles : List String
deriving DecidableEq, Repr

/-- The response payload of app.py lines 136-145: each of the five stem
names mapped to /server/output/{job_id}/{stem}.mp3. -/
def stemUrls (jobId : String) : List (String × String) :=
  let base := "/server/output/" ++ jobId
  [("kick", base ++ "/kick.mp3"),
   ("drums", base ++ "/drums.mp3"),
   ("bass", base ++ "/bass.mp3"),
   ("vocals", base ++ "/vocals.mp3"),
   ("other", base ++ "/other.mp3")]

/-- The filter_complex string of app.py lines 112-114:
"[0:a][1:a]...amix=inputs=N:duration=longest". -/
def amixFilterArgs (n : Nat) : String :=
  String.join ((List.range n).map (fun i => "[" ++ toString i ++ ":a]")) ++
    ("amix=inputs=" ++ toString n ++ ":duration=longest")

/-- App.py lines 104-108: the stems among guitar, piano, other that exist
in the demucs output directory, in that order. -/
def mergePaths (stemDir : String) (req : SepRequest) : List String :=
  (if req.guitarPresent then [osPathJoin stemDir "guitar.mp3"] else []) ++
  (if req.pianoPresent then [osPathJoin stemDir "piano.mp3"] else []) ++
  (if req.otherPresent then [osPathJoin stemDir "other.mp3"] else [])

/-- App.py lines 123-145: copy bass.mp3 and vocals.mp3 into the job
directory (shutil.copy2 raises if a source is missing), delete the demucs
tree, the uploaded input and the intermediate drums.wav, and answer with
the five stem URLs. -/
def finishSep (jobId : String) (invs : List (List String)) (files : List String)
    (req : SepRequest) : SepResult :=
  if req.bassPresent = false then
    ⟨⟨500, some "No such file or directory: bass.mp3", none, none⟩, true, invs, files⟩
  else if req.vocalsPresent = false then
    ⟨⟨500, some "No such file or directory: vocals.mp3", none, none⟩, true, invs,
     files ++ ["bass.mp3"]⟩
  else
    let files2 := (files ++ ["bass.mp3", "vocals.mp3"]).filter
      (fun f => !(f == "demucs_out" || f == "input_audio" || f == "drums.wav"))
    ⟨⟨200, none, none, some (stemUrls jobId)⟩, true, invs, files2⟩

/-- App.py lines 49-145, the body of the try block of the separate
handler: run demucs, low-pass the drums stem into kick.mp3, high-pass it
into drums.mp3, merge the available melodic stems into other.mp3 (amix
when two or more exist, a byte copy when exactly one exists, nothing when
none exists), then finish with the copies, the cleanup and the response.
Every external failure is caught and turned into a 500 response. -/
def runSeparatePipeline (outputDir jobId : String) (req : SepRequest) : SepResult :=
  let jobDir := osPathJoin outputDir jobId
  let demucsOut := osPathJoin jobDir "demucs_out"
  let demucsArgv : List String :=
    ["python", "-m", "demucs", "--mp3", "--mp3-bitrate", "192",
     "-n", "htdemucs_6s", "-o", demucsOut, osPathJoin jobDir "input_audio"]
  let files1 : List String := ["input_audio", "demucs_out"]
  match req.demucsExit with
  | Except.error e =>
      ⟨⟨500, some "Stem separation failed", some e, none⟩, true, [demucsArgv], files1⟩
  | Except.ok _ =>
    match req.trackDirs with
    | [] =>
        ⟨⟨500, some "Demucs produced no output", none, none⟩, true, [demucsArgv], files1⟩
    | trackName :: _ =>
      let stemDir := osPathJoin (osPathJoin demucsOut "htdemucs_6s") trackName
      if req.drumsStemPresent = false then
        ⟨⟨500, some "No such file or directory: drums.mp3", none, none⟩, true,
         [demucsArgv], files1⟩
      else
        let drumsWav := osPathJoin jobDir "drums.wav"
        let files2 := files1 ++ ["drums.wav"]
        let kickArgv : List String :=
          ["ffmpeg", "-y", "-i", drumsWav, "-af", "lowpass=f=150", "-b:a", "192k",
           osPathJoin jobDir "kick.mp3"]
        match req.kickExit with
        | Except.error e =>
            ⟨⟨500, some "Stem separation failed", some e, none⟩, true,
             [demucsArgv, kickArgv], files2⟩
        | Except.ok _ =>
          let files3 := files2 ++ ["kick.mp3"]
          let drumsSplitArgv : List String :=
            ["ffmpeg", "-y", "-i", drumsWav, "-af", "highpass=f=150", "-b:a", "192k",
             osPathJoin jobDir "drums.mp3"]
          match req.drumsSplitExit with
          | Except.error e =>
              ⟨⟨500, some "Stem separation failed", some e, none⟩, true,
               [demucsArgv, kickArgv, drumsSplitArgv], files3⟩
          | Except.ok _ =>
            let files4 := files3 ++ ["drums.mp3"]
            let invs3 := [demucsArgv, kickArgv, drumsSplitArgv]
            let mergeInputs := mergePaths stemDir req
            if 1 < mergeInputs.length then
              let amixArgv : List String :=
                ["ffmpeg", "-y"] ++ mergeInputs.flatMap (fun p => ["-i", p]) ++
                ["-filter_complex", amixFilterArgs mergeInputs.length, "-b:a", "192k",
                 osPathJoin jobDir "other.mp3"]
              match req.amixExit with
              | Except.error e =>
                  ⟨⟨500, some "Stem separation failed", some e, none⟩, true,
                   invs3 ++ [amixArgv], files4⟩
              | Except.ok _ =>
                  finishSep jobId (invs3 ++ [amixArgv]) (files4 ++ ["other.mp3"]) req
            else
              match mergeInputs with
              | _ :: _ => finishSep jobId invs3 (files4 ++ ["other.mp3"]) req
              | [] => finishSep jobId invs3 files4 req

/-- The POST /api/separate handler (app.py lines 40-153): reject a
request without a file field or with an empty filename with a 400 before
any job work, otherwise create the job directory and run the pipeline. -/
def separate (outputDir jobId : String) (req : SepRequest) : SepResult :=
  if req.filePresent = false then
    ⟨⟨400, some "No file uploaded", none, none⟩, false, [], []⟩
  else if req.filename = "" then
    ⟨⟨400, some "Empty filename", none, none⟩, false, [], []⟩
  else runSeparatePipeline outputDir jobId req

/-- The job-directory contents after a successful run: the two drum
bands, other.mp3 when at least one melodic stem existed, and the bass
and vocals copies; the demucs tree, the upload and drums.wav removed. -/
def sepFinalFiles (req : SepRequest) : List String :=
  ["kick.mp3", "drums.mp3"] ++
  (if req.guitarPresent || req.pianoPresent || req.otherPresent then ["other.mp3"] else []) ++
  ["bass.mp3", "vocals.mp3"]

/-- The subprocesses a successful run performs: demucs, the two ffmpeg
filter passes on drums.wav, and the amix merge when two or more melodic
stems existed. -/
def sepInvocationsList (outputDir jobId : String) (req : SepRequest) : List (List String) :=
  let jobDir := osPathJoin outputDir jobId
  let demucsOut := osPathJoin jobDir "demucs_out"
  let demucsArgv : List String :=
    ["python", "-m", "demucs", "--mp3", "--mp3-bitrate", "192",
     "-n", "htdemucs_6s", "-o", demucsOut, osPathJoin jobDir "input_audio"]
  let drumsWav := osPathJoin jobDir "drums.wav"
  let kickArgv : List String :=
    ["ffmpeg", "-y", "-i", drumsWav, "-af", "lowpass=f=150", "-b:a", "192k",
     osPathJoin jobDir "kick.mp3"]
  let drumsSplitArgv : List String :=
    ["ffmpeg", "-y", "-i", drumsWav, "-af", "highpass=f=150", "-b:a", "192k",
     osPathJoin jobDir "drums.mp3"]
  let stemDir := osPathJoin (osPathJoin demucsOut "htdemucs_6s") (req.trackDirs.headD "")
  let mergeInputs := mergePaths stemDir req
  let amixTail : List (List String) :=
    if 1 < mergeInputs.length then
      [["ffmpeg", "-y"] ++ mergeInputs.flatMap (fun p => ["-i", p]) ++
       ["-filter_complex", amixFilterArgs mergeInputs.length, "-b:a", "192k",
        osPathJoin jobDir "other.mp3"]]
    else []
  [demucsArgv, kickArgv, drumsSplitArgv] ++ amixTail

/-- The full observable outcome of a successful run. -/
def sepSuccessResult (outputDir jobId : String) (req : SepRequest) : SepResult :=
  ⟨⟨200, none, none, some (stemUrls jobId)⟩, true,
   sepInvocationsList outputDir jobId req, sepFinalFiles req⟩

/-- Any run of the separate handler that answers 200 is exactly the
success-path outcome: response, invocations and final directory contents
are those of `sepSuccessResult`. -/
theorem sep_succ_eq (od jid : String) (req : SepRequest)
    (h : (separate od jid req).response.status = 200) :
    separate od jid req = sepSuccessResult od jid req := by
  obtain ⟨fp, fn, de, td, ds, ke, dse, gp, pp, op, ae, bp, vp⟩ := req
  cases fp
  case false => exact absurd h (show (400 : Nat) ≠ 200 by decide)
  case true =>
    by_cases hfn : fn = ""
    · subst hfn
      exact absurd h (show (400 : Nat) ≠ 200 by decide)
    · unfold separate at h ⊢
      rw [if_neg (by decide : ¬(true = false)), if_neg hfn] at h ⊢
      cases de <;> cases td <;> cases ds <;> cases ke <;> cases dse <;>
        cases gp <;> cases pp <;> cases op <;> cases ae <;> cases bp <;> cases vp <;>
        first
          | rfl
          | exact absurd h (show (500 : Nat) ≠ 200 by decide)

/-- An audio signal as its sample sequence. -/
abbrev AudioData := List Int

/-- Modelled from the spec: the external transcoder amix filter invoked
with duration=longest (app.py line 114) — equal-weight summation of the
inputs, the output lasting as long as the longest input, shorter inputs
implicitly padded with silence (sample value 0). -/
def amixLongest (ins : List AudioData) : AudioData :=
  let n := (ins.map List.length).foldr max 0
  (List.range n).map (fun i => (ins.map (fun a => a.getD i 0)).sum)

/-- App.py lines 104-121 at the audio level: gather the melodic stems
that exist, amix them when two or more exist, copy the single one
byte-for-byte when exactly one exists, and write nothing when none
exists. -/
def mergeOther (guitar piano other : Option AudioData) : Option AudioData :=
  let mergeInputs := [guitar, piano, other].filterMap id
  if 1 < mergeInputs.length then some (amixLongest mergeInputs)
  else
    match mergeInputs with
    | [x] => some x
    | _ => none

theorem le_foldr_max (l : List Nat) : ∀ x ∈ l, x ≤ l.foldr max 0 := by
  induction l with
  | nil => intro x hx; cases hx
  | cons a t ih =>
      intro x hx
      rcases List.mem_cons.mp hx with rfl | hx
      · exact le_max_left _ _
      · exact le_trans (ih x hx) (le_max_right _ _)

theorem amixLongest_length (ins : List AudioData) :
    (amixLongest ins).length = (ins.map List.length).foldr max 0 := by
  simp [amixLongest]

theorem amixLongest_getD (ins : List AudioData) (i : Nat)
    (hi : i < (ins.map List.length).foldr max 0) :
    (amixLongest ins).getD i 0 = (ins.map (fun a => a.getD i 0)).sum := by
  simp only [amixLongest]
  rw [List.getD_eq_getElem?_getD, List.getElem?_map, List.getElem?_range hi]
  rfl

/-- A separation request on which everything succeeds and demucs wrote
all six stems. -/
def reqAllStems : SepRequest :=
  ⟨true, "song.mp3", Except.ok (), ["song"], true, Except.ok (), Except.ok (),
   true, true, true, Except.ok (), true, true⟩

/-- A separation request on which everything succeeds but demucs wrote
none of guitar.mp3, piano.mp3, other.mp3. -/
def reqNoMelodic : SepRequest :=
  ⟨true, "song.mp3", Except.ok (), ["song"], true, Except.ok (), Except.ok (),
   false, false, false, Except.ok (), true, true⟩

/-- A separation request whose multipart form has no file field. -/
def reqNoFile : SepRequest :=
  ⟨false, "song.mp3", Except.ok (), [], false, Except.ok (), Except.ok (),
   false, false, false, Except.ok (), false, false⟩

/-- A BPM request whose tracker yields tempo 140.0 and the tick list of
the test scenario. -/
def bpmReq140 : BpmRequest :=
  ⟨true, none, Except.ok (),
   Except.ok (TempoRepr.array [140], [2/5, 4/5, 6/5, 8/5])⟩

/-- A BPM request on which loading the audio raises. -/
def bpmReqLoadFail : BpmRequest :=
  ⟨true, none, Except.error "bad audio",
   Except.ok (TempoRepr.scalar 120, [])⟩

/-- A BPM request carrying neither a file upload nor a path field. -/
def bpmReqNeither : BpmRequest :=
  ⟨false, none, Except.ok (), Except.ok (TempoRepr.scalar 120, [])⟩

/-- A BPM request designating the audio by an absolute path field. -/
def bpmReqAbsPath : BpmRequest :=
  ⟨false, some "/etc/passwd", Except.ok (), Except.ok (TempoRepr.scalar 120, [])⟩

/-- C1: every successful POST /api/separate response carries a stems
object with exactly the five keys kick, drums, bass, vocals, other, and
each value is /server/output/{job_id}/{stem}.mp3 with the same job id in
all five URLs. -/
theorem c1_stem_urls (od jid : String) (req : SepRequest)
    (h : (separate od jid req).response.status = 200) :
    (separate od jid req).response.stems = some (stemUrls jid) ∧
    (stemUrls jid).map Prod.fst = ["kick", "drums", "bass", "vocals", "other"] ∧
    (stemUrls jid).lookup "kick" = some ("/server/output/" ++ jid ++ "/kick.mp3") ∧
    (stemUrls jid).lookup "drums" = some ("/server/output/" ++ jid ++ "/drums.mp3") ∧
    (stemUrls jid).lookup "bass" = some ("/server/output/" ++ jid ++ "/bass.mp3") ∧
    (stemUrls jid).lookup "vocals" = some ("/server/output/" ++ jid ++ "/vocals.mp3") ∧
    (stemUrls jid).lookup "other" = some ("/server/output/" ++ jid ++ "/other.mp3") := by
  refine ⟨?_, rfl, rfl, rfl, rfl, rfl, rfl⟩
  rw [sep_succ_eq od jid req h]
  rfl

theorem c1_stem_urls_witness :
    (separate "server/output" "job1" reqAllStems).response.status = 200 ∧
    (separate "server/output" "job1" reqAllStems).response.stems = some (stemUrls "job1") :=
  ⟨by decide, (c1_stem_urls "server/output" "job1" reqAllStems (by decide)).1⟩

/-- C5: on every successful separation the kick and the post-split drums
outputs come from two ffmpeg filter invocations whose input is the same
single file, the exported drums.wav, one with lowpass=f=150 and one with
highpass=f=150 — a complementary split at the identical 150 Hz cutoff. -/
theorem c5_complementary_split (od jid : String) (req : SepRequest)
    (h : (separate od jid req).response.status = 200) :
    ["ffmpeg", "-y", "-i", osPathJoin (osPathJoin od jid) "drums.wav", "-af",
     "lowpass=f=150", "-b:a", "192k", osPathJoin (osPathJoin od jid) "kick.mp3"]
      ∈ (separate od jid req).invocations ∧
    ["ffmpeg", "-y", "-i", osPathJoin (osPathJoin od jid) "drums.wav", "-af",
     "highpass=f=150", "-b:a", "192k", osPathJoin (osPathJoin od jid) "drums.mp3"]
      ∈ (separate od jid req).invocations := by
  rw [sep_succ_eq od jid req h]
  constructor
  · exact List.mem_append_left _ (List.mem_cons_of_mem _ (List.mem_cons_self _ _))
  · exact List.mem_append_left _
      (List.mem_cons_of_mem _ (List.mem_cons_of_mem _ (List.mem_cons_self _ _)))

theorem c5_complementary_split_witness :
    (separate "server/output" "job1" reqAllStems).response.status = 200 ∧
    ["ffmpeg", "-y", "-i", osPathJoin (osPathJoin "server/output" "job1") "drums.wav", "-af",
     "lowpass=f=150", "-b:a", "192k",
     osPathJoin (osPathJoin "server/output" "job1") "kick.mp3"]
      ∈ (separate "server/output" "job1" reqAllStems).invocations :=
  ⟨by decide, (c5_complementary_split "server/output" "job1" reqAllStems (by decide)).1⟩

/-- C6: after a successful separation in which at least one of guitar,
piano, other existed in the demucs output (the separation tool always
writes other, per its contract), the job directory holds exactly
kick.mp3, drums.mp3, other.mp3, bass.mp3, vocals.mp3: the demucs tree,
the uploaded input and the intermediate drums.wav are all deleted. -/
theorem c6_exact_final_files (od jid : String) (req : SepRequest)
    (h : (separate od jid req).response.status = 200)
    (hm : (req.guitarPresent || req.pianoPresent || req.otherPresent) = true) :
    (separate od jid req).jobFiles =
      ["kick.mp3", "drums.mp3", "other.mp3", "bass.mp3", "vocals.mp3"] ∧
    "input_audio" ∉ (separate od jid req).jobFiles ∧
    "demucs_out" ∉ (separate od jid req).jobFiles ∧
    "drums.wav" ∉ (separate od jid req).jobFiles := by
  have hf : (separate od jid req).jobFiles =
      ["kick.mp3", "drums.mp3", "other.mp3", "bass.mp3", "vocals.mp3"] := by
    rw [sep_succ_eq od jid req h]
    show sepFinalFiles req = _
    simp [sepFinalFiles, hm]
  refine ⟨hf, ?_, ?_, ?_⟩ <;> rw [hf] <;> decide

theorem c6_exact_final_files_witness :
    (separate "server/output" "job1" reqAllStems).response.status = 200 ∧
    (reqAllStems.guitarPresent || reqAllStems.pianoPresent || reqAllStems.otherPresent) = true ∧
    (separate "server/output" "job1" reqAllStems).jobFiles =
      ["kick.mp3", "drums.mp3", "other.mp3", "bass.mp3", "vocals.mp3"] :=
  ⟨by decide, rfl,
   (c6_exact_final_files "server/output" "job1" reqAllStems (by decide) rfl).1⟩

/-- C7: a separation request without a file field, or with an empty
filename, is answered 400 with an error field and no pipeline work: no
job directory is created, no subprocess runs, no file is written. -/
theorem c7_bad_upload (od jid : String) (req : SepRequest)
    (h : req.filePresent = false ∨ req.filename = "") :
    (separate od jid req).response.status = 400 ∧
    (separate od jid req).response.error.isSome = true ∧
    (separate od jid req).jobCreated = false ∧
    (separate od jid req).invocations = [] ∧
    (separate od jid req).jobFiles = [] := by
  rcases h with h | h
  · simp [separate, h]
  · rcases hfp : req.filePresent with _ | _
    · simp [separate, hfp]
    · simp [separate, hfp, h]

theorem c7_bad_upload_witness :
    (reqNoFile.filePresent = false ∨ reqNoFile.filename = "") ∧
    (separate "server/output" "job1" reqNoFile).response.status = 400 ∧
    (separate "server/output" "job1" reqNoFile).jobCreated = false :=
  ⟨Or.inl rfl,
   (c7_bad_upload "server/output" "job1" reqNoFile (Or.inl rfl)).1,
   (c7_bad_upload "server/output" "job1" reqNoFile (Or.inl rfl)).2.2.1⟩

/-- C9: when none of guitar.mp3, piano.mp3, other.mp3 exists in the
demucs output, the merge stage is silently skipped: the handler still
answers 200 with an other URL in the stems object, yet other.mp3 is not
among the files of the job directory, so that URL dangles. -/
theorem c9_dangling_other_url (od jid : String) (req : SepRequest)
    (hg : req.guitarPresent = false) (hp : req.pianoPresent = false)
    (ho : req.otherPresent = false)
    (h : (separate od jid req).response.status = 200) :
    (separate od jid req).response.stems = some (stemUrls jid) ∧
    (stemUrls jid).lookup "other" = some ("/server/output/" ++ jid ++ "/other.mp3") ∧
    "other.mp3" ∉ (separate od jid req).jobFiles := by
  refine ⟨?_, rfl, ?_⟩
  · rw [sep_succ_eq od jid req h]
    rfl
  · rw [sep_succ_eq od jid req h]
    show "other.mp3" ∉ sepFinalFiles req
    simp [sepFinalFiles, hg, hp, ho]

theorem c9_dangling_other_url_witness :
    (separate "server/output" "job1" reqNoMelodic).response.status = 200 ∧
    "other.mp3" ∉ (separate "server/output" "job1" reqNoMelodic).jobFiles ∧
    (separate "server/output" "job1" reqNoMelodic).response.stems = some (stemUrls "job1") := by
  have hx := c9_dangling_other_url "server/output" "job1" reqNoMelodic rfl rfl rfl (by decide)
  exact ⟨by decide, hx.2.2, hx.1⟩

/-- C2: the claim (and the test suite) expect the bpm response to carry a
beatOffset equal to the first tick; the code in app.py answers only a bpm
field.  At the test scenario (tempo 140.0, ticks 0.4, 0.8, 1.2, 1.6) the
embedded handler returns exactly a bpm of 140 and no beatOffset key. -/
theorem c2_no_beat_offset :
    detect_bpm "/proj" "/tmp/bpm_1" bpmReq140 = ⟨200, [("bpm", Jv.jint 140)]⟩ ∧
    (detect_bpm "/proj" "/tmp/bpm_1" bpmReq140).body.lookup "bpm" = some (Jv.jint 140) ∧
    (detect_bpm "/proj" "/tmp/bpm_1" bpmReq140).body.lookup "beatOffset" = none := by
  refine ⟨by decide, by decide, by decide⟩

/-- C3 counterexample: on the exception path the response carries error
and bpm 120 but no beatOffset field at all, so the claim that fallback
bpm and beatOffset values are returned fails as stated. -/
theorem c3_no_beat_offset_on_error :
    (detect_bpm "/proj" "/tmp/bpm_2" bpmReqLoadFail).status = 200 ∧
    (detect_bpm "/proj" "/tmp/bpm_2" bpmReqLoadFail).body.lookup "error" =
      some (Jv.jstr "bad audio") ∧
    (detect_bpm "/proj" "/tmp/bpm_2" bpmReqLoadFail).body.lookup "bpm" =
      some (Jv.jint 120) ∧
    (detect_bpm "/proj" "/tmp/bpm_2" bpmReqLoadFail).body.lookup "beatOffset" = none := by
  refine ⟨by decide, by decide, by decide, by decide⟩

/-- C3 amended: when loading or tempo extraction raises, the endpoint
answers HTTP 200 (not 500) with the error string and the fallback bpm
120 of the code (the test suite instead asserts 0), and no beatOffset
field is present in the error response. -/
theorem c3_error_fallback (root tmpPath : String) (req : BpmRequest) (e : String)
    (hsel : bpmSelectedPath root tmpPath req ≠ none)
    (h : req.loadResult = Except.error e ∨
         (req.loadResult = Except.ok () ∧ req.trackResult = Except.error e)) :
    detect_bpm root tmpPath req = ⟨200, [("error", Jv.jstr e), ("bpm", Jv.jint 120)]⟩ ∧
    (detect_bpm root tmpPath req).body.lookup "beatOffset" = none := by
  obtain ⟨sel, hs⟩ : ∃ sel, bpmSelectedPath root tmpPath req = some sel := by
    cases hx : bpmSelectedPath root tmpPath req
    · exact absurd hx hsel
    · exact ⟨_, rfl⟩
  have hresp : detect_bpm root tmpPath req =
      ⟨200, [("error", Jv.jstr e), ("bpm", Jv.jint 120)]⟩ := by
    rcases h with h1 | ⟨h1, h2⟩
    · simp [detect_bpm, hs, h1]
    · simp [detect_bpm, hs, h1, h2]
  refine ⟨hresp, ?_⟩
  rw [hresp]
  rfl

theorem c3_error_fallback_witness :
    bpmSelectedPath "/proj" "/tmp/bpm_3" bpmReqLoadFail ≠ none ∧
    detect_bpm "/proj" "/tmp/bpm_3" bpmReqLoadFail =
      ⟨200, [("error", Jv.jstr "bad audio"), ("bpm", Jv.jint 120)]⟩ :=
  ⟨by decide,
   (c3_error_fallback "/proj" "/tmp/bpm_3" bpmReqLoadFail "bad audio"
     (by decide) (Or.inl rfl)).1⟩

/-- C8: a bpm request carrying neither a file upload nor a path form
field is answered 400 with an error string; nothing else designates the
audio (the selected path is none exactly in that case). -/
theorem c8_bpm_requires_input (root tmpPath : String) (req : BpmRequest)
    (hf : req.fileUpload = false) (hp : req.pathField = none) :
    detect_bpm root tmpPath req =
      ⟨400, [("error", Jv.jstr "No file or path provided")]⟩ ∧
    (detect_bpm root tmpPath req).body.lookup "error" =
      some (Jv.jstr "No file or path provided") ∧
    bpmSelectedPath root tmpPath req = none := by
  have hsel : bpmSelectedPath root tmpPath req = none := by
    simp [bpmSelectedPath, hf, hp]
  have hresp : detect_bpm root tmpPath req =
      ⟨400, [("error", Jv.jstr "No file or path provided")]⟩ := by
    simp [detect_bpm, hsel]
  refine ⟨hresp, ?_, hsel⟩
  rw [hresp]
  rfl

theorem c8_bpm_requires_input_witness :
    bpmReqNeither.fileUpload = false ∧ bpmReqNeither.pathField = none ∧
    detect_bpm "/proj" "/tmp/bpm_4" bpmReqNeither =
      ⟨400, [("error", Jv.jstr "No file or path provided")]⟩ :=
  ⟨rfl, rfl, (c8_bpm_requires_input "/proj" "/tmp/bpm_4" bpmReqNeither rfl rfl).1⟩

/-- C10: with a path form field the loaded location is the raw
os.path.join of the project root and the client string — no
normalization, no containment check — so an absolute path discards the
root entirely and a dot-dot path resolves outside the root. -/
theorem c10_path_traversal (root p tmpPath : String) (req : BpmRequest)
    (hf : req.fileUpload = false) (hp : req.pathField = some p) :
    bpmSelectedPath root tmpPath req = some (osPathJoin root p) ∧
    osPathJoin "/home/app/music-visualizer" "/etc/passwd" = "/etc/passwd" ∧
    leadsUnder (resolveParts "/home/app/music-visualizer")
      (resolveParts (osPathJoin "/home/app/music-visualizer" "/etc/passwd")) = false ∧
    resolveParts (osPathJoin "/home/app/music-visualizer" "../../secret.txt") =
      ["home", "secret.txt"] ∧
    leadsUnder (resolveParts "/home/app/music-visualizer")
      (resolveParts (osPathJoin "/home/app/music-visualizer" "../../secret.txt")) = false := by
  refine ⟨?_, by decide, by decide, by decide, by decide⟩
  simp [bpmSelectedPath, hf, hp]

theorem c10_path_traversal_witness :
    bpmReqAbsPath.fileUpload = false ∧ bpmReqAbsPath.pathField = some "/etc/passwd" ∧
    bpmSelectedPath "/home/app/music-visualizer" "/tmp/bpm_5" bpmReqAbsPath =
      some (osPathJoin "/home/app/music-visualizer" "/etc/passwd") :=
  ⟨rfl, rfl,
   (c10_path_traversal "/home/app/music-visualizer" "/etc/passwd" "/tmp/bpm_5"
     bpmReqAbsPath rfl rfl).1⟩

/-- C4: in the other-stem consolidation, when two or more of guitar,
piano, other exist the output is their equal-weight sum, lasting exactly
as long as the longest input (every input fits, shorter ones padded with
silence), and when exactly one exists the output is identical to it. -/
theorem c4_merge_other (g p o : Option AudioData) :
    (1 < ([g, p, o].filterMap id).length →
      mergeOther g p o = some (amixLongest ([g, p, o].filterMap id)) ∧
      (amixLongest ([g, p, o].filterMap id)).length =
        (([g, p, o].filterMap id).map List.length).foldr max 0 ∧
      (∀ a ∈ [g, p, o].filterMap id,
        a.length ≤ (amixLongest ([g, p, o].filterMap id)).length) ∧
      (∀ i, i < (amixLongest ([g, p, o].filterMap id)).length →
        (amixLongest ([g, p, o].filterMap id)).getD i 0 =
          (([g, p, o].filterMap id).map (fun a => a.getD i 0)).sum)) ∧
    (∀ x, [g, p, o].filterMap id = [x] → mergeOther g p o = some x) := by
  constructor
  · intro hlen
    refine ⟨?_, amixLongest_length _, ?_, ?_⟩
    · simp [mergeOther, hlen]
    · intro a ha
      rw [amixLongest_length]
      exact le_foldr_max _ _ (List.mem_map_of_mem List.length ha)
    · intro i hi
      rw [amixLongest_length] at hi
      exact amixLongest_getD _ i hi
  · intro x hx
    simp [mergeOther, hx]

theorem c4_merge_other_witness :
    1 < ([some ([2, 4, 6] : AudioData), some [1], some [10, 20]].filterMap id).length ∧
    mergeOther (some [2, 4, 6]) (some [1]) (some [10, 20]) =
      some (amixLongest [[2, 4, 6], [1], [10, 20]]) :=
  ⟨by decide,
   ((c4_merge_other (some [2, 4, 6]) (some [1]) (some [10, 20])).1 (by decide)).1⟩

end MV
